import Mathlib

/-!
Verification of the cherrymap-untitled-ai chat service.

Shallow embedding of the request validation (`app/models/schemas.py`), the
situation classifier and response assembly of the navigation chatbot
(`app/services/navigation_chatbot_service.py`), the generic Google-AI chat
service (`app/services/google_ai_service.py`) and the HTTP endpoint wrappers
(`app/api/endpoints/chat.py`, `navigation.py`, `health.py`).

Modelling conventions:
  * Python strings become Lean `String`s; `str.strip`, `str.lower`, slicing
    and the `in` substring test are embedded as the list-of-characters
    functions `pyStrip`, `pyLower`, `pyTake` and `strContains` below.
  * The single call each service makes to the external generative model
    (`self.model.generate_content`) is abstracted as an oracle: either a
    function `Nat → Except String String` giving the outcome of the i-th
    upstream call made while handling one request (`.ok text` for a reply,
    `.error msg` for a raised exception), or, for the health probe, a
    function from the submitted prompt to the outcome.  The prompt text the
    service composes only influences the upstream reply, so it is absorbed
    into the oracle.
  * The two float literals `0.9`/`0.7` used for the confidence score are
    modelled as exact rationals.
  * The repository holds two divergent revisions of the navigation request
    schema (`schemas.py` declares `transportation_mode`, while
    `navigation_chatbot_service.py` and the `/chat` endpoint documentation
    read and describe a Korean-labelled `mode` field; the spec notes this
    open question).  The embedding gives `NavigationChatRequest` the fields
    the navigation service actually reads, `mode` included.
-/

set_option maxRecDepth 8000

deriving instance DecidableEq for Except

/-- Whitespace characters removed by Python `str.strip()` (ASCII subset). -/
def pyIsSpace (c : Char) : Bool :=
  c == ' ' || c == '\t' || c == '\n' || c == '\r' || c == '\x0b' || c == '\x0c'

/-- Python `str.strip()`: drop leading and trailing whitespace. -/
def pyStrip (s : String) : String :=
  ⟨((s.data.dropWhile pyIsSpace).reverse.dropWhile pyIsSpace).reverse⟩

/-- Python `str.lower()` (ASCII case folding; the Korean keywords used by the
services are unaffected by case folding). -/
def pyLower (s : String) : String :=
  ⟨s.data.map Char.toLower⟩

/-- Python slicing `s[:n]`. -/
def pyTake (s : String) (n : Nat) : String :=
  ⟨s.data.take n⟩

/-- Substring test on character lists, innermost loop of `strContains`. -/
def listContainsSub : List Char → List Char → Bool
  | [], pat => pat.isEmpty
  | s@(_ :: t), pat => pat.isPrefixOf s || listContainsSub t pat

/-- Python `pat in s` substring containment. -/
def strContains (s pat : String) : Bool :=
  listContainsSub s.data pat.data

/-- Python `any(keyword in text for keyword in keywords)`. -/
def matches_any (text : String) (keywords : List String) : Bool :=
  keywords.any (fun k => strContains text k)

/-! ## Request and response models (`app/models/schemas.py`) -/

/-- `LocationInfo` of `schemas.py` (coordinates as exact rationals). -/
structure LocationInfo where
  latitude : ℚ
  longitude : ℚ
deriving DecidableEq

/-- Navigation chat request as consumed by
`navigation_chatbot_service.py` (which reads `message`, `location`,
`destination_address`, `mode` and `user_context`).  `schemas.py`'s revision
declares `transportation_mode` in place of `mode`; the service and the
`/chat` endpoint documentation use `mode` with default "대중교통". -/
structure NavigationChatRequest where
  message : String
  location : LocationInfo
  destination_address : Option String := none
  mode : String := "대중교통"
  user_context : Option String := none
deriving DecidableEq

/-- Situation dictionary produced by `_analyze_situation`. -/
structure Situation where
  type : String
  urgency : String
  needs_reassurance : Bool
  suggested_actions : List String
deriving DecidableEq

/-- `ChatResponse` of `schemas.py`. -/
structure ChatResponse where
  response : String
  model : String := "gemini-1.5-flash"
deriving DecidableEq

/-- `NavigationChatResponse` of `schemas.py`. -/
structure NavigationChatResponse where
  response : String
  model : String := "gemini-1.5-flash"
  action_type : Option String := none
  confidence_score : Option ℚ := none
deriving DecidableEq

/-- Pydantic validation of a `message` field carrying
`min_length=1, max_length=maxLength` plus the `@validator('message')`
that rejects a whitespace-only value and returns `v.strip()`.  Pydantic runs
the declared length constraints on the raw value first and only then the
custom validator, which strips. -/
def validate_message (maxLength : Nat) (v : String) : Except String String :=
  if v.length < 1 then .error "string_too_short"
  else if v.length > maxLength then .error "string_too_long"
  else if (pyStrip v).length = 0 then .error "메시지는 비어있을 수 없습니다."
  else .ok (pyStrip v)

/-- Message validation of `ChatRequest` (generic chat, bound 10000). -/
def chat_validate_message (v : String) : Except String String :=
  validate_message 10000 v

/-- Message validation of `NavigationChatRequest` (bound 1000). -/
def nav_validate_message (v : String) : Except String String :=
  validate_message 1000 v

/-! ## Situation classifier (`navigation_chatbot_service._analyze_situation`) -/

/-- Route-deviation keywords (line 144 of `navigation_chatbot_service.py`). -/
def route_deviation_keywords : List String :=
  ["길을 이탈", "길을 잃었", "잘못된 길", "길을 못 찾"]

/-- Missed-transport keywords (line 154). -/
def missed_transport_keywords : List String :=
  ["버스를 놓쳤", "지하철을 놓쳤", "교통수단을 놓쳤"]

/-- Emergency keywords (line 164). -/
def emergency_keywords : List String :=
  ["무서워", "도와주세요", "긴급", "위험"]

/-- Line 122 of `navigation_chatbot_service.py`:
`context = request.user_context.lower() if request.user_context else ""`. -/
def context_text (request : NavigationChatRequest) : String :=
  match request.user_context with
  | some c => pyLower c
  | none => ""

/-- `_analyze_situation`: the priority cascade over the lower-cased message
and optional lower-cased user context.  The home-mode branch returns early;
the three keyword branches form an `if`/`elif`/`elif` chain mutating the
default `unknown` situation, whose fields not assigned by a branch keep
their defaults (`urgency="low"`, `needs_reassurance=True`,
`suggested_actions=[]`). -/
def analyze_situation (request : NavigationChatRequest) : Situation :=
  let message := pyLower request.message
  let context := context_text request
  if request.mode = "홈" then
    { type := "home_conversation", urgency := "low",
      needs_reassurance := false,
      suggested_actions := ["general_conversation", "provide_guidance"] }
  else if matches_any message route_deviation_keywords then
    { type := "route_deviation", urgency := "medium",
      needs_reassurance := true,
      suggested_actions := ["recalculate_route", "find_nearby_landmarks",
                            "provide_step_by_step_guidance"] }
  else if missed_transport_keywords.any
      (fun keyword => strContains message keyword || strContains context keyword) then
    { type := "missed_transport", urgency := "medium",
      needs_reassurance := true,
      suggested_actions := ["find_next_transport", "suggest_alternative_routes",
                            "provide_wait_time_info"] }
  else if matches_any message emergency_keywords then
    { type := "emergency", urgency := "high",
      needs_reassurance := true,
      suggested_actions := ["emergency_help", "find_safe_location",
                            "contact_emergency_services"] }
  else
    { type := "unknown", urgency := "low",
      needs_reassurance := true, suggested_actions := [] }

/-! ## Navigation response assembly
(`navigation_chatbot_service.generate_navigation_response`, lines 222-285)

`gen i` is the outcome of the i-th upstream `generate_content` call; the
method makes exactly one, with the composed prompt.  A raised exception is
caught by the surrounding `try` and re-raised as
`Exception(f"내비게이션 챗봇 오류: {str(e)}")`. -/

/-- `generate_navigation_response`: analyze the situation, make the single
upstream call, and assemble the `NavigationChatResponse` (trimmed text,
configured model name, first suggested action, two-valued confidence). -/
def generate_navigation_response (google_ai_model : String)
    (request : NavigationChatRequest) (gen : Nat → Except String String) :
    Except String NavigationChatResponse :=
  let situation := analyze_situation request
  match gen 0 with
  | .error e => .error ("내비게이션 챗봇 오류: " ++ e)
  | .ok text =>
      .ok { response := pyStrip text
          , model := google_ai_model
          , action_type := situation.suggested_actions.head?
          , confidence_score :=
              some (if situation.type ≠ "unknown" then (0.9 : ℚ) else 0.7) }

/-- The `POST /chat` handler of `app/api/endpoints/chat.py` (the deployment
whose navigation endpoint lives at `/chat`; `navigation.py`'s
`/navigation/chat` handler is identical): on success the service response,
on any exception `HTTPException(500, "Navigation chatbot error: " + str(e))`,
modelled as `.error (500, detail)`. -/
def navigation_chat (google_ai_model : String)
    (request : NavigationChatRequest) (gen : Nat → Except String String) :
    Except (Nat × String) NavigationChatResponse :=
  match generate_navigation_response google_ai_model request gen with
  | .ok r => .ok r
  | .error e => .error (500, "Navigation chatbot error: " ++ e)

/-! ## Generic chat service (`app/services/google_ai_service.py`) -/

/-- Fact-check cue keywords (line 95 of `google_ai_service.py`). -/
def fact_check_keywords : List String :=
  ["맞나요", "맞는가", "정확한가", "사실인가"]

/-- Opinion cue keywords (line 99). -/
def opinion_keywords : List String :=
  ["어떻게 생각하나요", "의견", "생각"]

/-- Explanation cue keywords (line 103). -/
def explanation_keywords : List String :=
  ["설명", "이해", "알려주세요", "무엇인가"]

/-- Comparison cue keywords (line 107). -/
def comparison_keywords : List String :=
  ["차이", "비교", "vs", "versus"]

/-- `_preprocess_prompt` of `google_ai_service.py`: strip, rewrite short
messages, truncate long ones, else try the four keyword-group rewrites on the
lower-cased message in order, else pass the message through. -/
def preprocess_prompt (message : String) : String :=
  let message := pyStrip message
  if message.length < 10 then
    "다음 질문에 대해 정확하고 간결하게 답변해주세요: " ++ message
  else if message.length > 500 then
    "다음 긴 질문에 대해 핵심만 간결하게 답변해주세요: " ++ pyTake message 500 ++ "..."
  else
    let lower_message := pyLower message
    if matches_any lower_message fact_check_keywords then
      "다음 질문에 대해 사실에 기반하여 정확하게 답변해주세요. 확실하지 않으면 \x27확실하지 않습니다\x27라고 답변하세요: " ++ message
    else if matches_any lower_message opinion_keywords then
      "다음 질문에 대해 객관적이고 균형잡힌 관점에서 답변해주세요: " ++ message
    else if matches_any lower_message explanation_keywords then
      "다음 질문에 대해 명확하고 이해하기 쉽게 설명해주세요: " ++ message
    else if matches_any lower_message comparison_keywords then
      "다음 질문에 대해 객관적인 사실에 기반하여 비교해주세요: " ++ message
    else
      message

/-- The four keyword-group rewrites as an ordered table, written from the
spec's description of the pipeline: each entry is the keyword group and the
instruction prefix its rewrite puts before the message. -/
def rewrite_rules : List (List String × String) :=
  [ (fact_check_keywords,
     "다음 질문에 대해 사실에 기반하여 정확하게 답변해주세요. 확실하지 않으면 \x27확실하지 않습니다\x27라고 답변하세요: ")
  , (opinion_keywords, "다음 질문에 대해 객관적이고 균형잡힌 관점에서 답변해주세요: ")
  , (explanation_keywords, "다음 질문에 대해 명확하고 이해하기 쉽게 설명해주세요: ")
  , (comparison_keywords, "다음 질문에 대해 객관적인 사실에 기반하여 비교해주세요: ") ]

/-- Declarative restatement of the preprocessing pipeline following the
spec's words: exactly one rewrite path, precedence short-message rewrite,
then long-message truncation, then the first matching keyword-group rewrite
of `rewrite_rules` in order, else the message unchanged. -/
def preprocess_prompt_spec (message : String) : String :=
  let s := pyStrip message
  if s.length < 10 then
    "다음 질문에 대해 정확하고 간결하게 답변해주세요: " ++ s
  else if s.length > 500 then
    "다음 긴 질문에 대해 핵심만 간결하게 답변해주세요: " ++ pyTake s 500 ++ "..."
  else
    match rewrite_rules.find? (fun r => matches_any (pyLower s) r.1) with
    | some r => r.2 ++ s
    | none => s

/-- `generate_response` of `google_ai_service.py`: one upstream call with
the composed prompt; on success wrap the raw text with the configured model
name, on exception re-raise
`Exception(f"Google AI Studio 통신 오류: {str(e)}")`. -/
def generate_response (google_ai_model : String)
    (gen : Nat → Except String String) : Except String ChatResponse :=
  match gen 0 with
  | .error e => .error ("Google AI Studio 통신 오류: " ++ e)
  | .ok text => .ok { response := text, model := google_ai_model }

/-- `health_check` of `google_ai_service.py`: submit the fixed prompt
"Hello" to the external model; `True` on success, every exception swallowed
into `False`.  `generate` maps the submitted prompt to the call's outcome. -/
def health_check (generate : String → Except String String) : Bool :=
  match generate "Hello" with
  | .ok _ => true
  | .error _ => false

/-- The `GET /health` handler of `app/api/endpoints/health.py`: the probe
call sits in a `try`, so a probe that itself raised (`.error`) is reported
"unhealthy" like a falsy probe result. -/
def health_endpoint (probe : Except String Bool) : String :=
  match probe with
  | .ok b => if b then "healthy" else "unhealthy"
  | .error _ => "unhealthy"

/-- The round-trip scenario request of the spec's testable properties:
message "버스를 놓쳤어요" from Seoul city hall with mode "대중교통". -/
def seoul_request : NavigationChatRequest :=
  { message := "버스를 놓쳤어요", location := ⟨37.5665, 126.9780⟩, mode := "대중교통" }

/-- A 1001-character message (1000 letters and one trailing space) whose
stripped form has exactly the navigation length bound of 1000 characters. -/
def long_a_message : String := ⟨List.replicate 1000 'a' ++ [' ']⟩

/-! ## Claims -/

/-- C1: a navigation request whose declared mode equals the home sentinel
"홈" is classified `home_conversation` with `urgency="low"`,
`needs_reassurance=false` and
`suggested_actions=[general_conversation, provide_guidance]`, short-circuiting
every keyword check regardless of the message's content. -/
theorem C1_home_mode_short_circuits (request : NavigationChatRequest)
    (h : request.mode = "홈") :
    analyze_situation request =
      { type := "home_conversation", urgency := "low",
        needs_reassurance := false,
        suggested_actions := ["general_conversation", "provide_guidance"] } := by
  simp [analyze_situation, h]

/-- Witness for C1: the spec's example `message="무서워요"` (an emergency
keyword) with `mode="홈"` yields `home_conversation`. -/
theorem C1_home_mode_short_circuits_witness :
    analyze_situation
        { message := "무서워요", location := ⟨37.5665, 126.9780⟩, mode := "홈" } =
      { type := "home_conversation", urgency := "low",
        needs_reassurance := false,
        suggested_actions := ["general_conversation", "provide_guidance"] } :=
  C1_home_mode_short_circuits
    { message := "무서워요", location := ⟨37.5665, 126.9780⟩, mode := "홈" } rfl

/-- C2: the classifier is a priority cascade with first match winning: when
the mode is not the home sentinel and the message contains both a
route-deviation keyword and an emergency keyword, the result type is
`route_deviation`, not `emergency`. -/
theorem C2_route_deviation_beats_emergency (request : NavigationChatRequest)
    (hmode : request.mode ≠ "홈")
    (hroute : matches_any (pyLower request.message) route_deviation_keywords = true)
    (_hemergency : matches_any (pyLower request.message) emergency_keywords = true) :
    (analyze_situation request).type = "route_deviation" := by
  simp [analyze_situation, hmode, hroute]

/-- Witness for C2: the spec's example message "길을 이탈했어요 무서워요"
contains a route-deviation and an emergency keyword and classifies as
`route_deviation`. -/
theorem C2_route_deviation_beats_emergency_witness :
    (analyze_situation
        { message := "길을 이탈했어요 무서워요",
          location := ⟨37.5665, 126.9780⟩, mode := "대중교통" }).type =
      "route_deviation" :=
  C2_route_deviation_beats_emergency
    { message := "길을 이탈했어요 무서워요",
      location := ⟨37.5665, 126.9780⟩, mode := "대중교통" }
    (by decide) (by decide) (by decide)

/-- C3: without home mode and without a route-deviation keyword, a
missed-transit keyword in the message or in the user context classifies as
`missed_transport` with `urgency="medium"` and the three transport actions;
and the spec's round-trip request (message "버스를 놓쳤어요", location
(37.5665, 126.9780), mode "대중교통") produces a response with
`action_type="find_next_transport"`, `confidence_score=0.9` and the
configured model name. -/
theorem C3_missed_transport_classification :
    (∀ request : NavigationChatRequest,
        request.mode ≠ "홈" →
        matches_any (pyLower request.message) route_deviation_keywords = false →
        (missed_transport_keywords.any fun keyword =>
            strContains (pyLower request.message) keyword ||
            strContains (context_text request) keyword) = true →
        analyze_situation request =
          { type := "missed_transport", urgency := "medium",
            needs_reassurance := true,
            suggested_actions := ["find_next_transport", "suggest_alternative_routes",
                                  "provide_wait_time_info"] })
    ∧ (∀ (google_ai_model text : String) (gen : Nat → Except String String)
          (r : NavigationChatResponse),
        gen 0 = .ok text →
        generate_navigation_response google_ai_model seoul_request gen = .ok r →
        (analyze_situation seoul_request).type = "missed_transport" ∧
        r.action_type = some "find_next_transport" ∧
        r.confidence_score = some (0.9 : ℚ) ∧
        r.model = google_ai_model) := by
  constructor
  · intro request hmode hroute hmissed
    simp [analyze_situation, hmode, hroute, hmissed]
  · intro google_ai_model text gen r hg h
    simp only [generate_navigation_response, hg, Except.ok.injEq] at h
    subst h
    exact ⟨by decide, rfl, rfl, rfl⟩

/-- Witness for C3: both conjuncts applied at the round-trip request, with
the upstream oracle answering "괜찮아요". -/
theorem C3_missed_transport_classification_witness :
    analyze_situation seoul_request =
      { type := "missed_transport", urgency := "medium",
        needs_reassurance := true,
        suggested_actions := ["find_next_transport", "suggest_alternative_routes",
                              "provide_wait_time_info"] }
    ∧ ((analyze_situation seoul_request).type = "missed_transport" ∧
       ({ response := "괜찮아요", model := "gemini-1.5-flash",
          action_type := some "find_next_transport",
          confidence_score := some (0.9 : ℚ) } : NavigationChatResponse).action_type =
         some "find_next_transport" ∧
       ({ response := "괜찮아요", model := "gemini-1.5-flash",
          action_type := some "find_next_transport",
          confidence_score := some (0.9 : ℚ) } : NavigationChatResponse).confidence_score =
         some (0.9 : ℚ) ∧
       ({ response := "괜찮아요", model := "gemini-1.5-flash",
          action_type := some "find_next_transport",
          confidence_score := some (0.9 : ℚ) } : NavigationChatResponse).model =
         "gemini-1.5-flash") :=
  ⟨C3_missed_transport_classification.1 seoul_request (by decide) (by decide) (by decide),
   C3_missed_transport_classification.2 "gemini-1.5-flash" "괜찮아요"
     (fun _ => .ok "괜찮아요") _ rfl rfl⟩

/-- C4: every successfully produced navigation response carries
`confidence_score` exactly 0.9 when the classified situation type is not
`unknown` and exactly 0.7 when it is `unknown`. -/
theorem C4_confidence_two_valued (google_ai_model : String)
    (request : NavigationChatRequest) (gen : Nat → Except String String)
    (r : NavigationChatResponse)
    (h : generate_navigation_response google_ai_model request gen = .ok r) :
    r.confidence_score =
      some (if (analyze_situation request).type ≠ "unknown"
            then (0.9 : ℚ) else 0.7) := by
  cases hg : gen 0 with
  | error e => simp [generate_navigation_response, hg] at h
  | ok text =>
    simp only [generate_navigation_response, hg, Except.ok.injEq] at h
    subst h
    rfl

/-- Witness for C4: a concrete successful round trip (an unknown-type
message would give 0.7; this one classifies `missed_transport`, so 0.9). -/
theorem C4_confidence_two_valued_witness :
    ({ response := "괜찮아요", model := "gemini-1.5-flash",
       action_type := some "find_next_transport",
       confidence_score := some (0.9 : ℚ) } : NavigationChatResponse).confidence_score =
      some (if (analyze_situation seoul_request).type ≠ "unknown"
            then (0.9 : ℚ) else 0.7) :=
  C4_confidence_two_valued "gemini-1.5-flash" seoul_request
    (fun _ => .ok "괜찮아요") _ rfl

/-- C5: every successfully produced navigation response has `action_type`
equal to the head of the classifier's `suggested_actions`; it is `none`
exactly when that list is empty, which happens exactly for the `unknown`
category. -/
theorem C5_action_type_head (google_ai_model : String)
    (request : NavigationChatRequest) (gen : Nat → Except String String)
    (r : NavigationChatResponse)
    (h : generate_navigation_response google_ai_model request gen = .ok r) :
    r.action_type = (analyze_situation request).suggested_actions.head?
    ∧ (r.action_type = none ↔ (analyze_situation request).suggested_actions = [])
    ∧ ((analyze_situation request).suggested_actions = [] ↔
        (analyze_situation request).type = "unknown") := by
  cases hg : gen 0 with
  | error e => simp [generate_navigation_response, hg] at h
  | ok text =>
    simp only [generate_navigation_response, hg, Except.ok.injEq] at h
    subst h
    by_cases h0 : request.mode = "홈" <;>
    by_cases h1 : matches_any (pyLower request.message) route_deviation_keywords = true <;>
    by_cases h2 : (missed_transport_keywords.any fun keyword =>
        strContains (pyLower request.message) keyword ||
        strContains (context_text request) keyword) = true <;>
    by_cases h3 : matches_any (pyLower request.message) emergency_keywords = true <;>
    simp [analyze_situation, h0, h1, h2, h3]

/-- Witness for C5: a round trip on a message no keyword group matches (the
`unknown` category), whose response therefore carries no action type. -/
theorem C5_action_type_head_witness :
    ({ response := "안녕하세요", model := "gemini-1.5-flash",
       action_type := none,
       confidence_score := some (0.7 : ℚ) } : NavigationChatResponse).action_type =
      (analyze_situation
        { message := "안녕", location := ⟨37.5665, 126.9780⟩ }).suggested_actions.head?
    ∧ (({ response := "안녕하세요", model := "gemini-1.5-flash",
          action_type := none,
          confidence_score := some (0.7 : ℚ) } : NavigationChatResponse).action_type = none ↔
        (analyze_situation
          { message := "안녕", location := ⟨37.5665, 126.9780⟩ }).suggested_actions = [])
    ∧ ((analyze_situation
          { message := "안녕", location := ⟨37.5665, 126.9780⟩ }).suggested_actions = [] ↔
        (analyze_situation
          { message := "안녕", location := ⟨37.5665, 126.9780⟩ }).type = "unknown") :=
  C5_action_type_head "gemini-1.5-flash"
    { message := "안녕", location := ⟨37.5665, 126.9780⟩ }
    (fun _ => .ok "안녕하세요") _ rfl

/-- C10: invariant of every classifier result: `needs_reassurance` is false
exactly when the type is `home_conversation` (so it stays true for
`route_deviation` and `missed_transport`), and `suggested_actions` is
non-empty exactly when the type is not `unknown`. -/
theorem C10_situation_invariant (request : NavigationChatRequest) :
    ((analyze_situation request).needs_reassurance = false ↔
      (analyze_situation request).type = "home_conversation")
    ∧ ((analyze_situation request).suggested_actions ≠ [] ↔
      (analyze_situation request).type ≠ "unknown") := by
  by_cases h0 : request.mode = "홈" <;>
  by_cases h1 : matches_any (pyLower request.message) route_deviation_keywords = true <;>
  by_cases h2 : (missed_transport_keywords.any fun keyword =>
      strContains (pyLower request.message) keyword ||
      strContains (context_text request) keyword) = true <;>
  by_cases h3 : matches_any (pyLower request.message) emergency_keywords = true <;>
  simp [analyze_situation, h0, h1, h2, h3]

/-- A message whose stripped form has length 0 never validates, for either
length bound. -/
theorem validate_message_not_ok_of_strip_empty (maxLength : Nat) (v : String)
    (h : (pyStrip v).length = 0) (t : String) :
    validate_message maxLength v ≠ .ok t := by
  unfold validate_message
  by_cases h1 : v.length < 1 <;> by_cases h2 : v.length > maxLength <;>
    simp [h1, h2, h]

/-- A raw message within the length bounds whose stripped form is non-empty
validates to its stripped form. -/
theorem validate_message_ok (maxLength : Nat) (v : String)
    (h1 : 1 ≤ v.length) (h2 : v.length ≤ maxLength)
    (h3 : (pyStrip v).length ≠ 0) :
    validate_message maxLength v = .ok (pyStrip v) := by
  have hx : ¬ v.length < 1 := by omega
  have hy : ¬ v.length > maxLength := by omega
  simp [validate_message, hx, hy, h3]

/-- A raw message longer than the bound is rejected for length, before any
trimming. -/
theorem validate_message_too_long (maxLength : Nat) (v : String)
    (h : maxLength < v.length) :
    validate_message maxLength v = .error "string_too_long" := by
  have hx : ¬ v.length < 1 := by omega
  simp [validate_message, hx, h]

/-- Counterexample to C6 as stated: the 1001-character message of 1000
letters and a trailing space has a stripped form of length 1000, within the
navigation bound of 1000 and non-empty, so under "length bounds apply to the
trimmed message" it would be accepted; the validator rejects it, because
pydantic enforces `max_length=1000` on the raw value before the stripping
validator runs. -/
theorem C6_counterexample :
    (pyStrip long_a_message).length = 1000 ∧
    1 ≤ (pyStrip long_a_message).length ∧
    (pyStrip long_a_message).length ≤ 1000 ∧
    nav_validate_message long_a_message = .error "string_too_long" := by
  refine ⟨by decide, by decide, by decide, by decide⟩

/-- C6 (amended): for both endpoints every message whose trimmed form has
length 0 is rejected with a validation error, and trimming is applied before
the emptiness check; the length bounds (1000 for navigation, 10000 for
generic chat) are enforced on the raw, untrimmed message, and a raw message
within bounds with a non-empty trimmed form validates to its trimmed form. -/
theorem C6_trim_before_emptiness_raw_bounds :
    (∀ v : String, (pyStrip v).length = 0 →
        (∀ t, chat_validate_message v ≠ .ok t) ∧
        (∀ t, nav_validate_message v ≠ .ok t))
    ∧ (∀ v : String, 1 ≤ v.length → v.length ≤ 1000 →
        (pyStrip v).length ≠ 0 → nav_validate_message v = .ok (pyStrip v))
    ∧ (∀ v : String, 1 ≤ v.length → v.length ≤ 10000 →
        (pyStrip v).length ≠ 0 → chat_validate_message v = .ok (pyStrip v))
    ∧ (∀ v : String, 1000 < v.length →
        nav_validate_message v = .error "string_too_long")
    ∧ (∀ v : String, 10000 < v.length →
        chat_validate_message v = .error "string_too_long") :=
  ⟨fun v h =>
    ⟨fun t => validate_message_not_ok_of_strip_empty 10000 v h t,
     fun t => validate_message_not_ok_of_strip_empty 1000 v h t⟩,
   fun v h1 h2 h3 => validate_message_ok 1000 v h1 h2 h3,
   fun v h1 h2 h3 => validate_message_ok 10000 v h1 h2 h3,
   fun v h => validate_message_too_long 1000 v h,
   fun v h => validate_message_too_long 10000 v h⟩

/-- Witness for C6 (amended): the whitespace-only message " " never
validates for the generic endpoint, a padded navigation message validates to
its stripped form, and the 1001-character message is rejected for raw
length. -/
theorem C6_trim_before_emptiness_raw_bounds_witness :
    chat_validate_message " " ≠ .ok "x"
    ∧ nav_validate_message "  버스를 놓쳤어요  " = .ok (pyStrip "  버스를 놓쳤어요  ")
    ∧ nav_validate_message long_a_message = .error "string_too_long" :=
  ⟨(C6_trim_before_emptiness_raw_bounds.1 " " (by decide)).1 "x",
   C6_trim_before_emptiness_raw_bounds.2.1 "  버스를 놓쳤어요  "
     (by decide) (by decide) (by decide),
   C6_trim_before_emptiness_raw_bounds.2.2.2.1 long_a_message (by decide)⟩

/-- C7: the generic-chat preprocessing applies exactly one rewrite path per
message with precedence short-message rewrite, then long-message truncation,
then the four keyword-group rewrites in the fixed order fact-check, opinion,
explanation, comparison with first match winning, else pass-through: it
coincides with the declarative first-match pipeline `preprocess_prompt_spec`
on every message. -/
theorem C7_preprocess_single_rewrite (message : String) :
    preprocess_prompt message = preprocess_prompt_spec message := by
  by_cases h0 : (pyStrip message).length < 10
  · simp [preprocess_prompt, preprocess_prompt_spec, h0]
  · by_cases h1 : (pyStrip message).length > 500
    · simp [preprocess_prompt, preprocess_prompt_spec, h0, h1]
    · by_cases h2 : matches_any (pyLower (pyStrip message)) fact_check_keywords = true <;>
      by_cases h3 : matches_any (pyLower (pyStrip message)) opinion_keywords = true <;>
      by_cases h4 : matches_any (pyLower (pyStrip message)) explanation_keywords = true <;>
      by_cases h5 : matches_any (pyLower (pyStrip message)) comparison_keywords = true <;>
      simp [preprocess_prompt, preprocess_prompt_spec, rewrite_rules, List.find?,
            h0, h1, h2, h3, h4, h5]

/-- C8: an upstream failure is caught and re-signaled as the single generic
communication error carrying the underlying message; neither service
consults more than the first upstream call's outcome (no retry); and the
chat endpoint turns the failure into a 500 whose detail contains the
upstream error text verbatim, returning no response object (hence no
fabricated `action_type` or `confidence_score`). -/
theorem C8_upstream_failure_handling :
    (∀ (google_ai_model msg : String) (gen : Nat → Except String String),
        gen 0 = .error msg →
        generate_response google_ai_model gen =
          .error ("Google AI Studio 통신 오류: " ++ msg))
    ∧ (∀ (google_ai_model : String) (gen gen' : Nat → Except String String),
        gen 0 = gen' 0 →
        generate_response google_ai_model gen =
          generate_response google_ai_model gen')
    ∧ (∀ (google_ai_model : String) (request : NavigationChatRequest)
          (gen gen' : Nat → Except String String),
        gen 0 = gen' 0 →
        navigation_chat google_ai_model request gen =
          navigation_chat google_ai_model request gen')
    ∧ (∀ (google_ai_model msg : String) (request : NavigationChatRequest)
          (gen : Nat → Except String String),
        gen 0 = .error msg →
        navigation_chat google_ai_model request gen =
          .error (500, "Navigation chatbot error: " ++
                        ("내비게이션 챗봇 오류: " ++ msg))) := by
  refine ⟨fun m msg gen h => ?_, fun m gen gen' h => ?_,
          fun m req gen gen' h => ?_, fun m msg req gen h => ?_⟩
  · simp [generate_response, h]
  · simp [generate_response, h]
  · simp [navigation_chat, generate_navigation_response, h]
  · simp [navigation_chat, generate_navigation_response, h]

/-- Witness for C8: the oracle raising "quota exceeded" on its single call
yields the wrapped communication error from the generic service and the 500
detail embedding the upstream text from the navigation endpoint. -/
theorem C8_upstream_failure_handling_witness :
    generate_response "gemini-1.5-flash" (fun _ => .error "quota exceeded") =
      .error ("Google AI Studio 통신 오류: " ++ "quota exceeded")
    ∧ navigation_chat "gemini-1.5-flash" seoul_request
        (fun _ => .error "quota exceeded") =
      .error (500, "Navigation chatbot error: " ++
                    ("내비게이션 챗봇 오류: " ++ "quota exceeded")) :=
  ⟨C8_upstream_failure_handling.1 "gemini-1.5-flash" "quota exceeded" _ rfl,
   C8_upstream_failure_handling.2.2.2 "gemini-1.5-flash" "quota exceeded"
     seoul_request _ rfl⟩

/-- C9: the health probe issues the fixed prompt "Hello" (its result depends
only on the oracle's answer to "Hello") and returns a boolean, swallowing
every error into failure; the health endpoint reports "unhealthy" exactly
when the probe returns false or raises, and "healthy" exactly when it
returns true. -/
theorem C9_health_check_semantics :
    (∀ g : String → Except String String,
        (health_check g = true ↔ ∃ t, g "Hello" = .ok t) ∧
        (health_check g = false ↔ ∃ e, g "Hello" = .error e))
    ∧ (∀ g g' : String → Except String String,
        g "Hello" = g' "Hello" → health_check g = health_check g')
    ∧ (∀ probe : Except String Bool,
        (health_endpoint probe = "healthy" ↔ probe = .ok true) ∧
        (health_endpoint probe = "unhealthy" ↔
          (probe = .ok false ∨ ∃ e, probe = .error e))) := by
  refine ⟨fun g => ?_, fun g g' h => ?_, fun probe => ?_⟩
  · cases hg : g "Hello" <;> simp [health_check, hg]
  · simp [health_check, h]
  · rcases probe with e | b
    · simp [health_endpoint]
    · cases b <;> simp [health_endpoint]

/-- Witness for C9: applying the probe-dependency part at an oracle raising
"boom", and the endpoint part at a raising probe. -/
theorem C9_health_check_semantics_witness :
    health_check (fun _ => Except.error "boom") =
      health_check (fun _ => Except.error "boom")
    ∧ (health_endpoint (Except.error "boom") = "unhealthy" ↔
        ((Except.error "boom" : Except String Bool) = Except.ok false ∨
         ∃ e, (Except.error "boom" : Except String Bool) = Except.error e)) :=
  ⟨C9_health_check_semantics.2.1 _ _ rfl,
   (C9_health_check_semantics.2.2 (Except.error "boom")).2⟩
